import Mathlib

/-!
# node-driver-registrar: the registration handshake

A shallow embedding of `cmd/csi-node-driver-registrar/main.go`.

* The process talks to its surroundings (the filesystem, the file-creation
  mask, the CSI driver, the kubelet) through a `World` value that is passed
  explicitly; every call that leaves the program appends a `Call` to
  `World.trace`, in the order in which the calls are made.
* `os.Exit` is a result: a handler returns `Proc.exit code`, the process as a
  whole ends in `Outcome.exited code`.
* `klog` calls only write log records and do not influence control flow; they
  are left out.
-/

namespace NodeDriverRegistrar

/-! ## Operating-system values -/

/-- Error numbers a path operation can fail with. -/
inductive Errno where
  | ENOENT
  | EACCES
  | ENOTDIR
  | ELOOP
  | ENAMETOOLONG
  | EADDRINUSE
  | EROFS
  | EPERM
  deriving DecidableEq, Repr

/-- Go `*os.PathError`: the failed operation, its path and the cause. -/
structure PathError where
  op : String
  path : String
  err : Errno
  deriving DecidableEq, Repr

/-- Go `os.IsNotExist`: the error reports that the path does not exist. -/
def os.IsNotExist (err : PathError) : Bool :=
  err.err == Errno.ENOENT

/-- Go `os.ModeDir`, bit 31 of a `FileMode`. -/
def os.ModeDir : Nat := 2 ^ 31

/-- Go `os.ModeSocket`, bit 24 of a `FileMode`. -/
def os.ModeSocket : Nat := 2 ^ 24

/-- A directory entry: its `FileMode` bits (type and permissions) and its content. -/
structure Node where
  mode : Nat
  content : String
  deriving DecidableEq, Repr

/-- Go `os.FileInfo`, as far as the program looks at it. -/
structure FileInfo where
  size : Nat
  mode : Nat
  deriving DecidableEq, Repr

/-- Go `FileInfo.Mode()`. -/
def FileInfo.Mode (fi : FileInfo) : Nat := fi.mode

/-- Go `net.Listener` for a unix socket: the address it is bound to. -/
structure Listener where
  network : String
  address : String
  deriving DecidableEq, Repr

/-- Go `*grpc.ClientConn`: the address it was dialled for. -/
structure ClientConn where
  target : String
  deriving DecidableEq, Repr

/-! ## The plugin registration API (`registerapi`) -/

/-- Constant `registerapi.CSIPlugin`. -/
def registerapi.CSIPlugin : String := "CSIPlugin"

/-- Message `registerapi.InfoRequest`: it has no fields. -/
structure InfoRequest where
  deriving DecidableEq, Repr

/-- Message `registerapi.PluginInfo`. -/
structure PluginInfo where
  type : String
  name : String
  endpoint : String
  supportedVersions : List String
  deriving DecidableEq, Repr

/-- Message `registerapi.RegistrationStatus`. -/
structure RegistrationStatus where
  pluginRegistered : Bool
  error : String
  deriving DecidableEq, Repr

/-- Message `registerapi.RegistrationStatusResponse`: it has no fields. -/
structure RegistrationStatusResponse where
  deriving DecidableEq, Repr

/-- One inbound call of the registration service. The request pointer of
`GetInfo` may be nil. -/
inductive Rpc where
  | getInfo (req : Option InfoRequest)
  | notify (status : RegistrationStatus)
  deriving DecidableEq, Repr

/-- What a handler hands back to the transport: the response and the error. -/
inductive Reply where
  | info (resp : PluginInfo) (err : Option String)
  | ack (resp : RegistrationStatusResponse) (err : Option String)
  deriving DecidableEq, Repr

/-- How `grpcServer.Serve` ends once the inbound calls have been handled: the
listener is closed cleanly, it fails, or the server keeps serving. -/
inductive ServeEnd where
  | stopped
  | failed (err : String)
  | forever
  deriving DecidableEq, Repr

/-- What the kubelet does with the registration socket during one run. -/
structure Traffic where
  calls : List Rpc
  ending : ServeEnd
  deriving DecidableEq, Repr

/-! ## The world the process runs in -/

/-- A call that leaves the program. -/
inductive Call where
  | connect (address : String)
  | getDriverName (target : String)
  | stat (name : String)
  | remove (name : String)
  | umask (mask : Nat)
  | listen (network address : String)
  | serve (address : String)
  deriving DecidableEq, Repr

/-- The surroundings of the process.

* `files` is the filesystem, a table from path to entry.
* `statFault`, `removeFault`, `listenFault` list the paths on which the
  respective system call is refused, with the error number (permission
  denied, a path component that is not a directory, ...), whatever `files`
  holds there.
* `umask` is the file-creation mask of the process.
* `goos` is `runtime.GOOS`.
* `connectFault` lists the driver addresses that cannot be reached;
  `driverName` is the answer to the identity query (an expired deadline is an
  error); `traffic` is what arrives on the registration socket.
* `trace` and `sent` record what the process did: the calls it made and the
  replies it gave. -/
structure World where
  files : List (String × Node)
  statFault : List (String × Errno)
  removeFault : List (String × Errno)
  listenFault : List (String × Errno)
  umask : Nat
  goos : String
  connectFault : List (String × String)
  driverName : Except String String
  traffic : Traffic
  trace : List Call
  sent : List Reply

/-- Appends a call to the trace. -/
def World.record (w : World) (c : Call) : World :=
  { w with trace := w.trace ++ [c] }

/-- Go `os.Stat`. -/
def os.Stat (w : World) (name : String) : World × Except PathError FileInfo :=
  let w1 := w.record (Call.stat name)
  match w.statFault.lookup name with
  | some e => (w1, Except.error ⟨"stat", name, e⟩)
  | none =>
    match w.files.lookup name with
    | some n => (w1, Except.ok ⟨n.content.length, n.mode⟩)
    | none => (w1, Except.error ⟨"stat", name, Errno.ENOENT⟩)

/-- Go `os.Remove`: on success the entry is gone, on failure nothing changes. -/
def os.Remove (w : World) (name : String) : World × Option PathError :=
  let w1 := w.record (Call.remove name)
  match w.removeFault.lookup name with
  | some e => (w1, some ⟨"remove", name, e⟩)
  | none =>
    match w.files.lookup name with
    | none => (w1, some ⟨"remove", name, Errno.ENOENT⟩)
    | some _ => ({ w1 with files := w1.files.filter (fun kv => kv.1 != name) }, none)

/-- Go `unix.Umask`: sets the file-creation mask to the permission bits of
`mask` and returns the previous mask. -/
def unix.Umask (w : World) (mask : Nat) : World × Nat :=
  ({ w.record (Call.umask mask) with umask := mask % 512 }, w.umask)

/-- Go `net.Listen` on a unix socket: binding fails when the call is refused
or the path is taken; otherwise a socket is created at the path with the
permissions the file-creation mask leaves. -/
def net.Listen (w : World) (network address : String) : World × Except PathError Listener :=
  let w1 := w.record (Call.listen network address)
  match w.listenFault.lookup address with
  | some e => (w1, Except.error ⟨"listen", address, e⟩)
  | none =>
    match w.files.lookup address with
    | some _ => (w1, Except.error ⟨"listen", address, Errno.EADDRINUSE⟩)
    | none =>
      -- the socket gets the permissions 0777 without the bits of the mask
      ({ w1 with files := (address, ⟨os.ModeSocket + (511 - w.umask % 512), ""⟩) :: w1.files },
        Except.ok ⟨network, address⟩)

/-- Go `connection.Connect` of csi-lib-utils. -/
def connection.Connect (w : World) (address : String) : World × Except String ClientConn :=
  let w1 := w.record (Call.connect address)
  match w.connectFault.lookup address with
  | some e => (w1, Except.error e)
  | none => (w1, Except.ok ⟨address⟩)

/-- Go `csirpc.GetDriverName` of csi-lib-utils, under the `csiTimeout` deadline. -/
def csirpc.GetDriverName (w : World) (conn : ClientConn) : World × Except String String :=
  (w.record (Call.getDriverName conn.target), w.driverName)

/-- The result of a handler: a value, or the end of the process (`os.Exit`). -/
inductive Proc (α : Type) where
  | ret (a : α)
  | exit (code : Nat)
  deriving DecidableEq, Repr

/-- How a run of the process ends: it exits with a status, or it keeps
serving and never exits. -/
inductive Outcome where
  | exited (status : Nat)
  | serving
  deriving DecidableEq, Repr

/-! ## The program -/

/-- The command line flags. -/
structure Flags where
  connectionTimeout : Int
  csiAddress : String
  kubeletRegistrationPath : String
  regPath : String
  showVersion : Bool
  deriving DecidableEq, Repr

/-- The values the flags have when the command line does not set them. -/
def defaultFlags : Flags :=
  { connectionTimeout := 0
    csiAddress := "/run/csi/socket"
    kubeletRegistrationPath := ""
    regPath := "/registration"
    showVersion := false }

/-- List of supported versions. -/
def supportedVersions : List String := ["1.0.0"]

/-- Type `registrationServer`. -/
structure registrationServer where
  driverName : String
  endpoint : String
  version : List String
  deriving DecidableEq, Repr

/-- Function `newRegistrationServer`. -/
def newRegistrationServer (driverName : String) (endpoint : String) (versions : List String) :
    registrationServer :=
  { driverName := driverName
    endpoint := endpoint
    version := versions }

/-- Method `GetInfo`: the RPC invoked by the plugin watcher. -/
def registrationServer.GetInfo (e : registrationServer) (_req : Option InfoRequest) :
    PluginInfo × Option String :=
  ({ type := registerapi.CSIPlugin
     name := e.driverName
     endpoint := e.endpoint
     supportedVersions := e.version }, none)

/-- Method `NotifyRegistrationStatus`. -/
def registrationServer.NotifyRegistrationStatus (_e : registrationServer)
    (status : RegistrationStatus) : Proc (RegistrationStatusResponse × Option String) :=
  if !status.pluginRegistered then
    Proc.exit 1
  else
    Proc.ret ({}, none)

/-- The generated service glue: an inbound call goes to the method of its name. -/
def dispatch (registrar : registrationServer) : Rpc → Proc Reply
  | Rpc.getInfo req =>
    let (resp, err) := registrar.GetInfo req
    Proc.ret (Reply.info resp err)
  | Rpc.notify status =>
    match registrar.NotifyRegistrationStatus status with
    | Proc.ret (resp, err) => Proc.ret (Reply.ack resp err)
    | Proc.exit code => Proc.exit code

/-- Handles inbound calls in order until one of them ends the process: the
replies given, and the exit status if a handler exited. -/
def handleAll (registrar : registrationServer) : List Rpc → List Reply × Option Nat
  | [] => ([], none)
  | c :: cs =>
    match dispatch registrar c with
    | Proc.exit code => ([], some code)
    | Proc.ret r =>
      let (rs, x) := handleAll registrar cs
      (r :: rs, x)

/-- How a call of `grpcServer.Serve` ends: it returns its error (nil after a
graceful stop), a handler ends the process, or it never returns. -/
inductive Served where
  | returned (err : Option String)
  | exited (code : Nat)
  | blocked
  deriving DecidableEq, Repr

/-- Go `grpcServer.Serve(lis)` with the registrar registered: the inbound
calls are handled, then `Serve` returns or goes on serving. A handler that
exits ends the process before that. -/
def grpc.Serve (w : World) (registrar : registrationServer) (lis : Listener) : World × Served :=
  let w1 := w.record (Call.serve lis.address)
  match handleAll registrar w.traffic.calls with
  | (rs, some code) => ({ w1 with sent := w1.sent ++ rs }, Served.exited code)
  | (rs, none) =>
    let w2 := { w1 with sent := w1.sent ++ rs }
    match w.traffic.ending with
    | ServeEnd.stopped => (w2, Served.returned none)
    | ServeEnd.failed err => (w2, Served.returned (some err))
    | ServeEnd.forever => (w2, Served.blocked)

/-- The two errors `CleanupSocketFile` builds with `fmt.Errorf`, by their
format and arguments. -/
inductive CleanupError where
  | removeFailed (socketPath : String) (err : PathError)
  | statFailed (socketPath : String) (err : PathError)
  deriving DecidableEq, Repr

/-- Function `Umask`. -/
def Umask (w : World) (mask : Nat) : World × Nat × Option String :=
  let (w1, old) := unix.Umask w mask
  (w1, old, none)

/-- Function `CleanupSocketFile`. -/
def CleanupSocketFile (w : World) (socketPath : String) : World × Option CleanupError :=
  match os.Stat w socketPath with
  | (w1, Except.ok fi) =>
    -- err == nil: the second test is false
    if fi.Mode &&& os.ModeSocket ≠ 0 then
      -- Remove any socket, stale or not, but fall through for other files
      match os.Remove w1 socketPath with
      | (w2, some err) => (w2, some (CleanupError.removeFailed socketPath err))
      | (w2, none) => (w2, none)
    else
      (w1, none)
  | (w1, Except.error err) =>
    -- err != nil: the first test is false
    if !os.IsNotExist err then
      (w1, some (CleanupError.statFailed socketPath err))
    else
      (w1, none)

/-- The local `socketPath` of `nodeRegister`:
`fmt.Sprintf("/%s/%s-reg.sock", *regPath, csiDriverName)`. -/
def nodeRegister.socketPath (regPath : String) (csiDriverName : String) : String :=
  "/" ++ regPath ++ "/" ++ csiDriverName ++ "-reg.sock"

/-- Function `nodeRegister`. -/
def nodeRegister (flags : Flags) (w : World) (csiDriverName : String) : World × Outcome :=
  let registrar := newRegistrationServer csiDriverName flags.kubeletRegistrationPath supportedVersions
  let socketPath := nodeRegister.socketPath flags.regPath csiDriverName
  match CleanupSocketFile w socketPath with
  | (w1, some _) => (w1, Outcome.exited 1)
  | (w1, none) =>
    -- var oldmask int; on linux: oldmask, _ = Umask(0077)
    let (w2, oldmask, _) := if w1.goos = "linux" then Umask w1 0o077 else (w1, 0, none)
    match net.Listen w2 "unix" socketPath with
    | (w3, Except.error _) => (w3, Outcome.exited 1)
    | (w3, Except.ok lis) =>
      let w4 := if w3.goos = "linux" then (Umask w3 oldmask).1 else w3
      -- Starts service
      match grpc.Serve w4 registrar lis with
      | (w5, Served.exited code) => (w5, Outcome.exited code)
      | (w5, Served.returned (some _)) => (w5, Outcome.exited 1)
      -- If gRPC server is gracefully shutdown, exit
      | (w5, Served.returned none) => (w5, Outcome.exited 0)
      | (w5, Served.blocked) => (w5, Outcome.serving)

/-- Function `main`, after the flags are parsed. -/
def main (flags : Flags) (w : World) : World × Outcome :=
  if flags.kubeletRegistrationPath = "" then
    (w, Outcome.exited 1)
  else if flags.showVersion then
    -- prints the version and returns
    (w, Outcome.exited 0)
  else
    match connection.Connect w flags.csiAddress with
    | (w1, Except.error _) => (w1, Outcome.exited 1)
    | (w1, Except.ok csiConn) =>
      match csirpc.GetDriverName w1 csiConn with
      | (w2, Except.error _) => (w2, Outcome.exited 1)
      | (w2, Except.ok csiDriverName) =>
        -- Run forever
        nodeRegister flags w2 csiDriverName

/-- Stated from the spec: the reply a server with the snapshot of `registrar`
owes to a call it survives, the `PluginInfo` of section 3 for `GetInfo` and
the empty acknowledgment for a notification. -/
def expectedReply (registrar : registrationServer) : Rpc → Reply
  | Rpc.getInfo _ =>
    Reply.info ⟨"CSIPlugin", registrar.driverName, registrar.endpoint, registrar.version⟩ none
  | Rpc.notify _ => Reply.ack {} none

/-! ## Sample worlds -/

/-- A Linux host with an empty registration directory, the usual mask, a
reachable driver called `csi.example.com`, and a kubelet that asks for the
plugin information, reports success and later closes the connection. -/
def quietWorld : World :=
  { files := []
    statFault := []
    removeFault := []
    listenFault := []
    umask := 0o022
    goos := "linux"
    connectFault := []
    driverName := Except.ok "csi.example.com"
    traffic := ⟨[Rpc.getInfo (some {}), Rpc.notify ⟨true, ""⟩], ServeEnd.stopped⟩
    trace := []
    sent := [] }

/-- The flags of a usual deployment. -/
def sampleFlags : Flags :=
  { defaultFlags with kubeletRegistrationPath := "/var/lib/kubelet/plugins/csi.example.com/csi.sock" }

/-- The path `nodeRegister` works on for the default registration directory
and the driver `csi.example.com`. -/
def samplePath : String := "//registration/csi.example.com-reg.sock"

/-- The quiet world with a regular file and a directory entry: the regular
file sits where the registration socket is to be bound. -/
def occupiedWorld : World :=
  { quietWorld with
    files := [(samplePath, ⟨0o644, "notes"⟩), ("//registration", ⟨os.ModeDir + 0o755, ""⟩)] }

/-- The quiet world with the socket of an earlier run left behind, next to
the socket of another driver. -/
def staleSocketWorld : World :=
  { quietWorld with
    files := [(samplePath, ⟨os.ModeSocket + 0o700, ""⟩),
              ("//registration/other-reg.sock", ⟨os.ModeSocket + 0o700, ""⟩)] }

/-- The stale socket cannot be removed. -/
def lockedSocketWorld : World :=
  { staleSocketWorld with removeFault := [(samplePath, Errno.EACCES)] }

/-- The registration directory cannot be searched. -/
def deniedWorld : World :=
  { quietWorld with statFault := [(samplePath, Errno.EACCES)] }

/-- The socket cannot be bound. -/
def refusedBindWorld : World :=
  { quietWorld with listenFault := [(samplePath, Errno.EROFS)] }

/-- The driver socket cannot be reached. -/
def unreachableWorld : World :=
  { quietWorld with connectFault := [("/run/csi/socket", "connection refused")] }

/-- The driver does not answer the identity query in time. -/
def silentDriverWorld : World :=
  { quietWorld with driverName := Except.error "context deadline exceeded" }

/-- The kubelet rejects the registration. -/
def rejectingWorld : World :=
  { quietWorld with
    traffic := ⟨[Rpc.getInfo (some {}), Rpc.notify ⟨false, "plugin not supported"⟩],
      ServeEnd.forever⟩ }

/-! ## Lemmas on the table of files -/

theorem lookup_filter_other (l : List (String × Node)) (p q : String) (h : q ≠ p) :
    (l.filter (fun kv => kv.1 != p)).lookup q = l.lookup q := by
  induction l with
  | nil => rfl
  | cons kv l ih =>
    obtain ⟨k, n⟩ := kv
    by_cases hk : k = p
    · subst hk
      have hq : (q == k) = false := by simpa using h
      simp [List.filter_cons, List.lookup_cons, hq, ih]
    · have hk2 : (k != p) = true := by simpa using hk
      simp only [List.filter_cons, hk2, if_true, List.lookup_cons, ih]

theorem lookup_filter_same (l : List (String × Node)) (p : String) :
    (l.filter (fun kv => kv.1 != p)).lookup p = none := by
  induction l with
  | nil => rfl
  | cons kv l ih =>
    obtain ⟨k, n⟩ := kv
    by_cases hk : k = p
    · subst hk
      simp [List.filter_cons, ih]
    · have hk2 : (k != p) = true := by simpa using hk
      have hp : (p == k) = false := by simpa using fun h : p = k => hk h.symm
      simp only [List.filter_cons, hk2, if_true, List.lookup_cons, hp, ih]

/-! ## Lemmas on the handlers -/

theorem handleAll_accepted (registrar : registrationServer) (calls : List Rpc)
    (h : ∀ s, Rpc.notify s ∈ calls → s.pluginRegistered = true) :
    handleAll registrar calls = (calls.map (expectedReply registrar), none) := by
  induction calls with
  | nil => rfl
  | cons c cs ih =>
    have ih2 := ih (fun s hs => h s (List.mem_cons_of_mem _ hs))
    cases c with
    | getInfo req =>
      simp [handleAll, dispatch, registrationServer.GetInfo, ih2, expectedReply, registerapi.CSIPlugin]
    | notify status =>
      have hs := h status (List.mem_cons_self _ _)
      simp [handleAll, dispatch, registrationServer.NotifyRegistrationStatus, hs, ih2, expectedReply]

/-! ## Lemmas on the startup steps -/

theorem stat_refused (w : World) (p : String) (e : Errno) (h : w.statFault.lookup p = some e) :
    os.Stat w p = (w.record (Call.stat p), Except.error ⟨"stat", p, e⟩) := by
  simp only [os.Stat, h]

theorem stat_found (w : World) (p : String) (n : Node) (h : w.statFault.lookup p = none)
    (hn : w.files.lookup p = some n) :
    os.Stat w p = (w.record (Call.stat p), Except.ok ⟨n.content.length, n.mode⟩) := by
  simp only [os.Stat, h, hn]

theorem stat_absent (w : World) (p : String) (h : w.statFault.lookup p = none)
    (hn : w.files.lookup p = none) :
    os.Stat w p = (w.record (Call.stat p), Except.error ⟨"stat", p, Errno.ENOENT⟩) := by
  simp only [os.Stat, h, hn]

theorem stat_world (w : World) (p : String) : (os.Stat w p).1 = w.record (Call.stat p) := by
  cases h : w.statFault.lookup p with
  | some e => rw [stat_refused w p e h]
  | none =>
    cases hn : w.files.lookup p with
    | some n => rw [stat_found w p n h hn]
    | none => rw [stat_absent w p h hn]

theorem remove_cases (w : World) (p : String) :
    (∃ e, os.Remove w p = (w.record (Call.remove p), some e)) ∨
    os.Remove w p =
      ({ w.record (Call.remove p) with files := w.files.filter (fun kv => kv.1 != p) }, none) := by
  cases h : w.removeFault.lookup p with
  | some e => exact Or.inl ⟨⟨"remove", p, e⟩, by simp only [os.Remove, h]⟩
  | none =>
    cases hn : w.files.lookup p with
    | none => exact Or.inl ⟨⟨"remove", p, Errno.ENOENT⟩, by simp only [os.Remove, h, hn]⟩
    | some n => exact Or.inr (by simp only [os.Remove, h, hn, World.record])

theorem cleanup_of_stat_error (w w1 : World) (p : String) (err : PathError)
    (h : os.Stat w p = (w1, Except.error err)) :
    CleanupSocketFile w p =
      (w1, if os.IsNotExist err then none else some (CleanupError.statFailed p err)) := by
  simp only [CleanupSocketFile, h]
  cases os.IsNotExist err <;> rfl

theorem cleanup_of_non_socket (w w1 : World) (p : String) (fi : FileInfo)
    (h : os.Stat w p = (w1, Except.ok fi)) (hm : fi.Mode &&& os.ModeSocket = 0) :
    CleanupSocketFile w p = (w1, none) := by
  simp only [CleanupSocketFile, h, hm, ne_eq, not_true_eq_false, if_false]

theorem cleanup_of_socket (w w1 : World) (p : String) (fi : FileInfo)
    (h : os.Stat w p = (w1, Except.ok fi)) (hm : fi.Mode &&& os.ModeSocket ≠ 0) :
    CleanupSocketFile w p =
      ((os.Remove w1 p).1, (os.Remove w1 p).2.map (CleanupError.removeFailed p)) := by
  simp only [CleanupSocketFile, h, hm, ne_eq, not_false_eq_true, if_true]
  rcases hr : os.Remove w1 p with ⟨w2, _ | e⟩ <;> rfl

theorem cleanup_cases (w : World) (p : String) :
    CleanupSocketFile w p = (w.record (Call.stat p), none) ∨
    (∃ e, CleanupSocketFile w p = (w.record (Call.stat p), some (CleanupError.statFailed p e))) ∨
    (∃ e, CleanupSocketFile w p =
      ((w.record (Call.stat p)).record (Call.remove p), some (CleanupError.removeFailed p e))) ∨
    CleanupSocketFile w p =
      ({ (w.record (Call.stat p)).record (Call.remove p) with
          files := w.files.filter (fun kv => kv.1 != p) }, none) := by
  have hw := stat_world w p
  rcases hs : os.Stat w p with ⟨w1, err | fi⟩
  · rw [hs] at hw
    simp only at hw
    subst hw
    rw [cleanup_of_stat_error w _ p err hs]
    cases os.IsNotExist err
    · exact Or.inr (Or.inl ⟨err, rfl⟩)
    · exact Or.inl rfl
  · rw [hs] at hw
    simp only at hw
    subst hw
    by_cases hm : fi.Mode &&& os.ModeSocket = 0
    · exact Or.inl (cleanup_of_non_socket w _ p fi hs hm)
    · rw [cleanup_of_socket w _ p fi hs hm]
      rcases remove_cases (w.record (Call.stat p)) p with ⟨e, he⟩ | he
      · exact Or.inr (Or.inr (Or.inl ⟨e, by rw [he]; rfl⟩))
      · exact Or.inr (Or.inr (Or.inr (by rw [he]; rfl)))

theorem nodeRegister_cleanup_failed (flags : Flags) (w w1 : World) (d : String) (e : CleanupError)
    (h : CleanupSocketFile w (nodeRegister.socketPath flags.regPath d) = (w1, some e)) :
    nodeRegister flags w d = (w1, Outcome.exited 1) := by
  simp only [nodeRegister, h]

theorem nodeRegister_listen_failed (flags : Flags) (w w1 w3 : World) (d : String) (e : PathError)
    (h : CleanupSocketFile w (nodeRegister.socketPath flags.regPath d) = (w1, none))
    (hl : net.Listen (if w1.goos = "linux" then Umask w1 0o077 else (w1, 0, none)).1 "unix"
      (nodeRegister.socketPath flags.regPath d) = (w3, Except.error e)) :
    nodeRegister flags w d = (w3, Outcome.exited 1) := by
  simp only [nodeRegister, h]
  by_cases hg : w1.goos = "linux"
  · simp only [hg, if_true, Umask, unix.Umask] at hl ⊢
    simp only [hl]
  · simp only [hg, if_false] at hl ⊢
    simp only [hl]

theorem nodeRegister_listening (flags : Flags) (w w1 w3 w5 : World) (d : String) (lis : Listener)
    (s : Served)
    (h : CleanupSocketFile w (nodeRegister.socketPath flags.regPath d) = (w1, none))
    (hl : net.Listen (if w1.goos = "linux" then Umask w1 0o077 else (w1, 0, none)).1 "unix"
      (nodeRegister.socketPath flags.regPath d) = (w3, Except.ok lis))
    (hs : grpc.Serve
      (if w3.goos = "linux" then
        (Umask w3 (if w1.goos = "linux" then Umask w1 0o077 else (w1, 0, none)).2.1).1 else w3)
      (newRegistrationServer d flags.kubeletRegistrationPath supportedVersions) lis = (w5, s)) :
    (nodeRegister flags w d).1 = w5 ∧
    (∀ code, s = Served.exited code → (nodeRegister flags w d).2 = Outcome.exited code) ∧
    (∀ err, s = Served.returned (some err) → (nodeRegister flags w d).2 = Outcome.exited 1) ∧
    (s = Served.returned none → (nodeRegister flags w d).2 = Outcome.exited 0) ∧
    (s = Served.blocked → (nodeRegister flags w d).2 = Outcome.serving) := by
  simp only [nodeRegister, h]
  by_cases hg : w1.goos = "linux"
  · simp only [hg, if_true, Umask, unix.Umask] at hl hs ⊢
    simp only [hl, hs]
    rcases s with (_ | err) | code | _ <;> simp
  · simp only [hg, if_false] at hl hs ⊢
    simp only [hl, hs]
    rcases s with (_ | err) | code | _ <;> simp

theorem cleanup_frame (w : World) (p : String) :
    (CleanupSocketFile w p).1.sent = w.sent ∧ (CleanupSocketFile w p).1.traffic = w.traffic ∧
    (CleanupSocketFile w p).1.goos = w.goos ∧ (CleanupSocketFile w p).1.umask = w.umask ∧
    (CleanupSocketFile w p).1.statFault = w.statFault ∧
    (CleanupSocketFile w p).1.removeFault = w.removeFault ∧
    (CleanupSocketFile w p).1.listenFault = w.listenFault := by
  rcases cleanup_cases w p with h | ⟨e, h⟩ | ⟨e, h⟩ | h <;> rw [h] <;> simp [World.record]

theorem listen_cases (w : World) (network address : String) :
    (∃ e, net.Listen w network address =
      (w.record (Call.listen network address), Except.error e)) ∨
    (w.files.lookup address = none ∧
      net.Listen w network address =
        ({ w.record (Call.listen network address) with
            files := (address, ⟨os.ModeSocket + (511 - w.umask % 512), ""⟩) :: w.files },
          Except.ok ⟨network, address⟩)) := by
  cases h : w.listenFault.lookup address with
  | some e => exact Or.inl ⟨⟨"listen", address, e⟩, by simp only [net.Listen, h]⟩
  | none =>
    cases hn : w.files.lookup address with
    | some n => exact Or.inl ⟨⟨"listen", address, Errno.EADDRINUSE⟩, by simp only [net.Listen, h, hn]⟩
    | none => exact Or.inr ⟨rfl, by simp only [net.Listen, h, hn, World.record]⟩

theorem listen_frame (w : World) (network address : String) :
    (net.Listen w network address).1.sent = w.sent ∧
    (net.Listen w network address).1.traffic = w.traffic ∧
    (net.Listen w network address).1.goos = w.goos ∧
    (net.Listen w network address).1.umask = w.umask ∧
    (net.Listen w network address).1.trace = w.trace ++ [Call.listen network address] := by
  rcases listen_cases w network address with ⟨e, h⟩ | ⟨_, h⟩ <;> rw [h] <;> simp [World.record]

theorem serve_world (w : World) (registrar : registrationServer) (lis : Listener) :
    (grpc.Serve w registrar lis).1 =
      { w.record (Call.serve lis.address) with
          sent := w.sent ++ (handleAll registrar w.traffic.calls).1 } := by
  simp only [grpc.Serve]
  rcases hh : handleAll registrar w.traffic.calls with ⟨rs, _ | code⟩
  · cases he : w.traffic.ending <;> simp [World.record]
  · simp [World.record]

theorem nodeRegister_sent (flags : Flags) (w : World) (d : String) :
    (nodeRegister flags w d).1.sent = w.sent ∨
    (nodeRegister flags w d).1.sent =
      w.sent ++ (handleAll (newRegistrationServer d flags.kubeletRegistrationPath supportedVersions)
        w.traffic.calls).1 := by
  have hf := cleanup_frame w (nodeRegister.socketPath flags.regPath d)
  rcases hc : CleanupSocketFile w (nodeRegister.socketPath flags.regPath d) with ⟨w1, _ | e⟩
  · rw [hc] at hf
    simp only at hf
    obtain ⟨hsent, htraffic, hgoos, -⟩ := hf
    have hl := listen_frame (if w1.goos = "linux" then Umask w1 0o077 else (w1, 0, none)).1 "unix"
      (nodeRegister.socketPath flags.regPath d)
    have hm : (if w1.goos = "linux" then Umask w1 0o077 else (w1, 0, none)).1.sent = w1.sent ∧
        (if w1.goos = "linux" then Umask w1 0o077 else (w1, 0, none)).1.traffic = w1.traffic := by
      split <;> simp [Umask, unix.Umask, World.record]
    rcases hn : net.Listen (if w1.goos = "linux" then Umask w1 0o077 else (w1, 0, none)).1 "unix"
      (nodeRegister.socketPath flags.regPath d) with ⟨w3, e | lis⟩
    · left
      rw [nodeRegister_listen_failed flags w w1 w3 d e hc hn]
      rw [hn] at hl
      simp only at hl
      rw [hl.1, hm.1, hsent]
    · right
      rw [hn] at hl
      simp only at hl
      have hr : (if w3.goos = "linux" then
          (Umask w3 (if w1.goos = "linux" then Umask w1 0o077 else (w1, 0, none)).2.1).1
          else w3).sent = w3.sent ∧
        (if w3.goos = "linux" then
          (Umask w3 (if w1.goos = "linux" then Umask w1 0o077 else (w1, 0, none)).2.1).1
          else w3).traffic = w3.traffic := by
        split <;> simp [Umask, unix.Umask, World.record]
      have hw := serve_world (if w3.goos = "linux" then
          (Umask w3 (if w1.goos = "linux" then Umask w1 0o077 else (w1, 0, none)).2.1).1
          else w3) (newRegistrationServer d flags.kubeletRegistrationPath supportedVersions) lis
      rcases hv : grpc.Serve (if w3.goos = "linux" then
          (Umask w3 (if w1.goos = "linux" then Umask w1 0o077 else (w1, 0, none)).2.1).1
          else w3) (newRegistrationServer d flags.kubeletRegistrationPath supportedVersions) lis
        with ⟨w5, s⟩
      rw [hv] at hw
      simp only at hw
      rw [(nodeRegister_listening flags w w1 w3 w5 d lis s hc hn hv).1, hw]
      simp only [hr.1, hr.2, hl.1, hl.2.1, hm.1, hm.2, hsent, htraffic]
  · left
    rw [hc] at hf
    rw [nodeRegister_cleanup_failed flags w w1 d e hc]
    exact hf.1

theorem handleAll_exit_code (registrar : registrationServer) (calls : List Rpc) (rs : List Reply)
    (code : Nat) (h : handleAll registrar calls = (rs, some code)) : code = 1 := by
  induction calls generalizing rs with
  | nil => simp [handleAll] at h
  | cons c cs ih =>
    cases c with
    | getInfo req =>
      simp only [handleAll, dispatch, registrationServer.GetInfo] at h
      rcases hh : handleAll registrar cs with ⟨rs2, x⟩
      rw [hh] at h
      simp only [Prod.mk.injEq] at h
      exact ih rs2 (by rw [hh, h.2])
    | notify status =>
      simp only [handleAll, dispatch, registrationServer.NotifyRegistrationStatus] at h
      cases hp : status.pluginRegistered
      · simp [hp] at h
        exact h.2.symm
      · rcases hh : handleAll registrar cs with ⟨rs2, x⟩
        simp [hp, hh] at h
        exact ih rs2 (by rw [hh, h.2])

theorem serve_exit_code (w w5 : World) (registrar : registrationServer) (lis : Listener)
    (code : Nat) (h : grpc.Serve w registrar lis = (w5, Served.exited code)) : code = 1 := by
  simp only [grpc.Serve] at h
  rcases hh : handleAll registrar w.traffic.calls with ⟨rs, _ | c⟩
  · rw [hh] at h
    cases he : w.traffic.ending <;> simp [he] at h
  · rw [hh] at h
    simp only [Prod.mk.injEq, Served.exited.injEq] at h
    rw [← h.2]
    exact handleAll_exit_code registrar _ rs c hh

theorem main_connect_failed (flags : Flags) (w w1 : World) (e : String)
    (hk : flags.kubeletRegistrationPath ≠ "") (hv : flags.showVersion = false)
    (h : connection.Connect w flags.csiAddress = (w1, Except.error e)) :
    main flags w = (w1, Outcome.exited 1) := by
  rw [main, if_neg hk, hv]
  simp only [Bool.false_eq_true, if_false, h]

theorem main_name_failed (flags : Flags) (w w1 w2 : World) (csiConn : ClientConn) (e : String)
    (hk : flags.kubeletRegistrationPath ≠ "") (hv : flags.showVersion = false)
    (h : connection.Connect w flags.csiAddress = (w1, Except.ok csiConn))
    (hn : csirpc.GetDriverName w1 csiConn = (w2, Except.error e)) :
    main flags w = (w2, Outcome.exited 1) := by
  rw [main, if_neg hk, hv]
  simp only [Bool.false_eq_true, if_false, h, hn]

theorem main_registers (flags : Flags) (w w1 w2 : World) (csiConn : ClientConn) (d : String)
    (hk : flags.kubeletRegistrationPath ≠ "") (hv : flags.showVersion = false)
    (h : connection.Connect w flags.csiAddress = (w1, Except.ok csiConn))
    (hn : csirpc.GetDriverName w1 csiConn = (w2, Except.ok d)) :
    main flags w = nodeRegister flags w2 d := by
  rw [main, if_neg hk, hv]
  simp only [Bool.false_eq_true, if_false, h, hn]

theorem connect_world (w : World) (address : String) :
    (connection.Connect w address).1 = w.record (Call.connect address) ∧
    ∀ c, (connection.Connect w address).2 = Except.ok c → c.target = address := by
  simp only [connection.Connect]
  cases w.connectFault.lookup address <;> simp

theorem nodeRegister_exit_zero (flags : Flags) (w : World) (d : String) :
    (nodeRegister flags w d).2 = Outcome.exited 0 ↔
      ∃ w3 w4 lis w5,
        CleanupSocketFile w (nodeRegister.socketPath flags.regPath d) = (w3, none) ∧
        net.Listen (if w3.goos = "linux" then Umask w3 0o077 else (w3, 0, none)).1 "unix"
          (nodeRegister.socketPath flags.regPath d) = (w4, Except.ok lis) ∧
        grpc.Serve
          (if w4.goos = "linux" then
            (Umask w4 (if w3.goos = "linux" then Umask w3 0o077 else (w3, 0, none)).2.1).1
            else w4)
          (newRegistrationServer d flags.kubeletRegistrationPath supportedVersions) lis =
          (w5, Served.returned none) := by
  constructor
  · intro h
    rcases hc : CleanupSocketFile w (nodeRegister.socketPath flags.regPath d) with ⟨w3, _ | e⟩
    · rcases hl : net.Listen (if w3.goos = "linux" then Umask w3 0o077 else (w3, 0, none)).1 "unix"
          (nodeRegister.socketPath flags.regPath d) with ⟨w4, e | lis⟩
      · rw [nodeRegister_listen_failed flags w w3 w4 d e hc hl] at h
        simp at h
      · rcases hs : grpc.Serve
          (if w4.goos = "linux" then
            (Umask w4 (if w3.goos = "linux" then Umask w3 0o077 else (w3, 0, none)).2.1).1
            else w4)
          (newRegistrationServer d flags.kubeletRegistrationPath supportedVersions) lis
          with ⟨w5, s⟩
        have hn := nodeRegister_listening flags w w3 w4 w5 d lis s hc hl hs
        rcases s with (_ | err) | code | _
        · exact ⟨w3, w4, lis, w5, rfl, hl, hs⟩
        · rw [hn.2.2.1 err rfl] at h
          simp at h
        · rw [hn.2.1 code rfl, serve_exit_code _ _ _ _ code hs] at h
          simp at h
        · rw [hn.2.2.2.2 rfl] at h
          simp at h
    · rw [nodeRegister_cleanup_failed flags w w3 d e hc] at h
      simp at h
  · rintro ⟨w3, w4, lis, w5, hc, hl, hs⟩
    exact (nodeRegister_listening flags w w3 w4 w5 d lis _ hc hl hs).2.2.2.1 rfl

/-- Startup with a non-socket at the socket path: the cleanup passes, the bind
finds the path taken, the process exits with status 1 and the files are as
they were. -/
theorem nodeRegister_occupied_path (flags : Flags) (w : World) (d : String) (n : Node)
    (hs : w.statFault.lookup (nodeRegister.socketPath flags.regPath d) = none)
    (hn : w.files.lookup (nodeRegister.socketPath flags.regPath d) = some n)
    (hm : n.mode &&& os.ModeSocket = 0) :
    (nodeRegister flags w d).2 = Outcome.exited 1 ∧ (nodeRegister flags w d).1.files = w.files := by
  have hc := cleanup_of_non_socket w _ _ _
    (stat_found w (nodeRegister.socketPath flags.regPath d) n hs hn) hm
  have hfiles : (if (w.record (Call.stat (nodeRegister.socketPath flags.regPath d))).goos = "linux"
      then Umask (w.record (Call.stat (nodeRegister.socketPath flags.regPath d))) 0o077
      else (w.record (Call.stat (nodeRegister.socketPath flags.regPath d)), 0, none)).1.files
      = w.files := by
    split <;> rfl
  rcases listen_cases
    (if (w.record (Call.stat (nodeRegister.socketPath flags.regPath d))).goos = "linux"
      then Umask (w.record (Call.stat (nodeRegister.socketPath flags.regPath d))) 0o077
      else (w.record (Call.stat (nodeRegister.socketPath flags.regPath d)), 0, none)).1
    "unix" (nodeRegister.socketPath flags.regPath d) with ⟨e, he⟩ | ⟨hfree, _⟩
  · rw [nodeRegister_listen_failed flags w _ _ d e hc he]
    exact ⟨rfl, hfiles⟩
  · rw [hfiles, hn] at hfree
    simp at hfree

/-! ## The registration server -/

/-- C2: for every driver name, endpoint, version list and request, `GetInfo`
on the server built by `newRegistrationServer` returns no error and the
`PluginInfo` of type `CSIPlugin` with that name, endpoint and version list.
The server `nodeRegister` serves with is the one built from the driver name,
the kubelet-registration-path flag and the list `["1.0.0"]`: what a run of
`nodeRegister` sends is nothing (startup failed), or the replies of that
server to the inbound calls. -/
theorem getInfo_returns_snapshot (d e : String) (v : List String) (req : Option InfoRequest) :
    (newRegistrationServer d e v).GetInfo req = (⟨"CSIPlugin", d, e, v⟩, none) ∧
    ∀ (flags : Flags) (w : World),
      (nodeRegister flags w d).1.sent = w.sent ∨
      (nodeRegister flags w d).1.sent =
        w.sent ++ (handleAll (newRegistrationServer d flags.kubeletRegistrationPath ["1.0.0"])
          w.traffic.calls).1 :=
  ⟨rfl, fun flags w => nodeRegister_sent flags w d⟩

/-- C3: `NotifyRegistrationStatus` ends the process exactly when
`pluginRegistered` is false, and then with exit status 1; when
`pluginRegistered` is true it returns the empty response and no error,
whatever the `error` field holds. -/
theorem notifyRegistrationStatus_exits_iff_rejected (e : registrationServer)
    (s : RegistrationStatus) :
    ((∃ code, e.NotifyRegistrationStatus s = Proc.exit code) ↔ s.pluginRegistered = false) ∧
    (s.pluginRegistered = false → e.NotifyRegistrationStatus s = Proc.exit 1) ∧
    (s.pluginRegistered = true → e.NotifyRegistrationStatus s = Proc.ret ({}, none)) := by
  obtain ⟨registered, msg⟩ := s
  cases registered <;> simp [registrationServer.NotifyRegistrationStatus]

/-- C3 at a rejection and at an acceptance that carries an error text. -/
theorem notifyRegistrationStatus_exits_iff_rejected_witness :
    (newRegistrationServer "csi.example.com" "/csi.sock" ["1.0.0"]).NotifyRegistrationStatus
        ⟨false, "plugin not supported"⟩ = Proc.exit 1 ∧
    (newRegistrationServer "csi.example.com" "/csi.sock" ["1.0.0"]).NotifyRegistrationStatus
        ⟨true, "stale text"⟩ = Proc.ret ({}, none) :=
  ⟨(notifyRegistrationStatus_exits_iff_rejected _ ⟨false, "plugin not supported"⟩).2.1 rfl,
   (notifyRegistrationStatus_exits_iff_rejected _ ⟨true, "stale text"⟩).2.2 rfl⟩

/-- C10: for every server and every finite sequence of `GetInfo` calls and
notifications with `pluginRegistered = true`, in any order and with any
requests, no call ends the process and every call is answered from the
snapshot the server was built with: each `GetInfo` gets the `PluginInfo` of
the server's name, endpoint and versions, the same value at every position,
also after a notification. -/
theorem getInfo_stable_under_calls (registrar : registrationServer) (calls : List Rpc)
    (h : ∀ s, Rpc.notify s ∈ calls → s.pluginRegistered = true) :
    handleAll registrar calls = (calls.map (expectedReply registrar), none) ∧
    ∀ req, expectedReply registrar (Rpc.getInfo req) =
      Reply.info ⟨"CSIPlugin", registrar.driverName, registrar.endpoint, registrar.version⟩ none :=
  ⟨handleAll_accepted registrar calls h, fun _ => rfl⟩

/-- C10 on a sequence with a `GetInfo` before and after an accepted
notification. -/
theorem getInfo_stable_under_calls_witness :
    handleAll (newRegistrationServer "csi.example.com" "/csi.sock" ["1.0.0"])
      [Rpc.getInfo none, Rpc.notify ⟨true, ""⟩, Rpc.getInfo (some {})] =
      ([Reply.info ⟨"CSIPlugin", "csi.example.com", "/csi.sock", ["1.0.0"]⟩ none,
        Reply.ack {} none,
        Reply.info ⟨"CSIPlugin", "csi.example.com", "/csi.sock", ["1.0.0"]⟩ none], none) :=
  (getInfo_stable_under_calls (newRegistrationServer "csi.example.com" "/csi.sock" ["1.0.0"])
    [Rpc.getInfo none, Rpc.notify ⟨true, ""⟩, Rpc.getInfo (some {})]
    (by intro s hs; simp at hs; rw [hs])).1

/-! ## Cleanup of the socket path -/

/-- C4, as the code has it: when something that is not a socket (a regular
file, a directory) exists at `socketPath` and inspecting the path succeeds,
`CleanupSocketFile` does not fail. It returns nil and leaves the files as
they are: other files fall through to the bind step. -/
theorem cleanup_passes_over_non_socket (w : World) (socketPath : String) (n : Node)
    (hs : w.statFault.lookup socketPath = none)
    (hn : w.files.lookup socketPath = some n)
    (hm : n.mode &&& os.ModeSocket = 0) :
    (CleanupSocketFile w socketPath).2 = none ∧
    (CleanupSocketFile w socketPath).1.files = w.files := by
  rw [cleanup_of_non_socket w _ socketPath _ (stat_found w socketPath n hs hn) hm]
  exact ⟨rfl, rfl⟩

/-- C4 at a regular file. -/
theorem cleanup_passes_over_non_socket_witness :
    (CleanupSocketFile occupiedWorld samplePath).2 = none ∧
    (CleanupSocketFile occupiedWorld samplePath).1.files = occupiedWorld.files :=
  cleanup_passes_over_non_socket occupiedWorld samplePath ⟨0o644, "notes"⟩ rfl rfl (by decide)

/-- C4 as stated fails: with a regular file at the socket path, and with a
directory there, `CleanupSocketFile` returns nil. -/
theorem cleanup_does_not_fail_on_regular_file :
    occupiedWorld.files.lookup samplePath = some ⟨0o644, "notes"⟩ ∧
    (0o644 &&& os.ModeSocket = 0) ∧
    (CleanupSocketFile occupiedWorld samplePath).2 = none ∧
    occupiedWorld.files.lookup "//registration" = some ⟨os.ModeDir + 0o755, ""⟩ ∧
    ((os.ModeDir + 0o755) &&& os.ModeSocket = 0) ∧
    (CleanupSocketFile occupiedWorld "//registration").2 = none := by
  decide

/-- C5: `CleanupSocketFile` never deletes a non-socket file. When
`socketPath` holds an entry without the socket bit (a regular file, a
directory), the files after the call are the files before it; and in every
state, whatever the outcome, every path other than `socketPath` holds after
the call what it held before. -/
theorem cleanup_keeps_non_socket (w : World) (socketPath : String) :
    (∀ n, w.files.lookup socketPath = some n → n.mode &&& os.ModeSocket = 0 →
      (CleanupSocketFile w socketPath).1.files = w.files) ∧
    (∀ q, q ≠ socketPath →
      (CleanupSocketFile w socketPath).1.files.lookup q = w.files.lookup q) := by
  constructor
  · intro n hn hm
    cases hs : w.statFault.lookup socketPath with
    | some e => rw [cleanup_of_stat_error w _ socketPath _ (stat_refused w socketPath e hs)]; rfl
    | none => rw [cleanup_of_non_socket w _ socketPath _ (stat_found w socketPath n hs hn) hm]; rfl
  · intro q hq
    rcases cleanup_cases w socketPath with h | ⟨e, h⟩ | ⟨e, h⟩ | h <;> rw [h]
    · rfl
    · rfl
    · rfl
    · exact lookup_filter_other w.files socketPath q hq

/-- C5 at a regular file, and at a stale socket next to another driver's
socket. -/
theorem cleanup_keeps_non_socket_witness :
    (CleanupSocketFile occupiedWorld samplePath).1.files = occupiedWorld.files ∧
    (CleanupSocketFile staleSocketWorld samplePath).1.files.lookup "//registration/other-reg.sock" =
      staleSocketWorld.files.lookup "//registration/other-reg.sock" :=
  ⟨(cleanup_keeps_non_socket occupiedWorld samplePath).1 ⟨0o644, "notes"⟩ rfl (by decide),
   (cleanup_keeps_non_socket staleSocketWorld samplePath).2 "//registration/other-reg.sock"
     (by decide)⟩

/-- C6: when a socket exists at `socketPath` (the inspection reports it) and
its removal succeeds, `CleanupSocketFile` returns nil and nothing exists at
`socketPath` afterwards; a second call on the resulting state returns nil
again and changes no file. When the removal fails, `CleanupSocketFile` returns
an error. -/
theorem cleanup_removes_socket (w : World) (socketPath : String) (n : Node)
    (hs : w.statFault.lookup socketPath = none)
    (hn : w.files.lookup socketPath = some n)
    (hm : n.mode &&& os.ModeSocket ≠ 0) :
    ((os.Remove (os.Stat w socketPath).1 socketPath).2 = none →
      (CleanupSocketFile w socketPath).2 = none ∧
      (CleanupSocketFile w socketPath).1.files.lookup socketPath = none ∧
      (CleanupSocketFile (CleanupSocketFile w socketPath).1 socketPath).2 = none ∧
      (CleanupSocketFile (CleanupSocketFile w socketPath).1 socketPath).1.files =
        (CleanupSocketFile w socketPath).1.files) ∧
    (∀ err, (os.Remove (os.Stat w socketPath).1 socketPath).2 = some err →
      (CleanupSocketFile w socketPath).2 =
        some (CleanupError.removeFailed socketPath err)) := by
  have hst := stat_found w socketPath n hs hn
  have hc := cleanup_of_socket w _ socketPath _ hst hm
  rw [hst]
  constructor
  · intro hr
    rcases remove_cases (w.record (Call.stat socketPath)) socketPath with ⟨e, he⟩ | he
    · rw [he] at hr
      exact absurd hr (by simp)
    · rw [he] at hc
      simp only [Option.map_none'] at hc
      have hgone : (CleanupSocketFile w socketPath).1.files.lookup socketPath = none := by
        rw [hc]
        exact lookup_filter_same _ socketPath
      have hfault : (CleanupSocketFile w socketPath).1.statFault.lookup socketPath = none := by
        rw [(cleanup_frame w socketPath).2.2.2.2.1]
        exact hs
      have h2 := cleanup_of_stat_error _ _ socketPath _
        (stat_absent (CleanupSocketFile w socketPath).1 socketPath hfault hgone)
      refine ⟨by rw [hc], hgone, by rw [h2]; rfl, by rw [h2]; rfl⟩
  · intro err hr
    rw [hc, hr]
    rfl

/-- C6 at a stale socket that can be removed, and at one that cannot. -/
theorem cleanup_removes_socket_witness :
    ((CleanupSocketFile staleSocketWorld samplePath).2 = none ∧
      (CleanupSocketFile staleSocketWorld samplePath).1.files.lookup samplePath = none ∧
      (CleanupSocketFile (CleanupSocketFile staleSocketWorld samplePath).1 samplePath).2 = none ∧
      (CleanupSocketFile (CleanupSocketFile staleSocketWorld samplePath).1 samplePath).1.files =
        (CleanupSocketFile staleSocketWorld samplePath).1.files) ∧
    (CleanupSocketFile lockedSocketWorld samplePath).2 =
      some (CleanupError.removeFailed samplePath ⟨"remove", samplePath, Errno.EACCES⟩) :=
  ⟨(cleanup_removes_socket staleSocketWorld samplePath ⟨os.ModeSocket + 0o700, ""⟩ rfl rfl
      (by decide)).1 rfl,
   (cleanup_removes_socket lockedSocketWorld samplePath ⟨os.ModeSocket + 0o700, ""⟩ rfl rfl
      (by decide)).2 ⟨"remove", samplePath, Errno.EACCES⟩ rfl⟩

/-- C7: when inspecting `socketPath` fails, `CleanupSocketFile` returns nil
exactly when the error is "path does not exist", and it leaves the files as
they are; every other inspection error is returned as an error, on which
`nodeRegister` exits with status 1 having made no call but the inspection, so
before any bind is attempted. -/
theorem cleanup_on_inspection_error (w w1 : World) (socketPath : String) (err : PathError)
    (h : os.Stat w socketPath = (w1, Except.error err)) :
    ((CleanupSocketFile w socketPath).2 = none ↔ os.IsNotExist err = true) ∧
    (CleanupSocketFile w socketPath).1.files = w.files ∧
    (os.IsNotExist err = false →
      (CleanupSocketFile w socketPath).2 = some (CleanupError.statFailed socketPath err) ∧
      ∀ (flags : Flags) (d : String),
        socketPath = nodeRegister.socketPath flags.regPath d →
        nodeRegister flags w d = (w1, Outcome.exited 1) ∧
        w1.trace = w.trace ++ [Call.stat socketPath]) := by
  have hc := cleanup_of_stat_error w w1 socketPath err h
  have hw := stat_world w socketPath
  rw [h] at hw
  simp only at hw
  refine ⟨?_, ?_, ?_⟩
  · rw [hc]
    cases os.IsNotExist err <;> simp
  · rw [hc, hw]
    rfl
  · intro hne
    rw [hne] at hc
    refine ⟨by rw [hc]; rfl, ?_⟩
    intro flags d hp
    subst hp
    exact ⟨nodeRegister_cleanup_failed flags w w1 d _ hc, by rw [hw]; rfl⟩

/-- C7 at a path that does not exist, and at a path whose inspection is
denied. -/
theorem cleanup_on_inspection_error_witness :
    (CleanupSocketFile quietWorld samplePath).2 = none ∧
    (CleanupSocketFile deniedWorld samplePath).2 =
      some (CleanupError.statFailed samplePath ⟨"stat", samplePath, Errno.EACCES⟩) ∧
    (nodeRegister sampleFlags deniedWorld "csi.example.com").2 = Outcome.exited 1 ∧
    (nodeRegister sampleFlags deniedWorld "csi.example.com").1.trace = [Call.stat samplePath] :=
  ⟨(cleanup_on_inspection_error quietWorld (quietWorld.record (Call.stat samplePath)) samplePath
      ⟨"stat", samplePath, Errno.ENOENT⟩ rfl).1.2 rfl,
   ((cleanup_on_inspection_error deniedWorld (deniedWorld.record (Call.stat samplePath)) samplePath
      ⟨"stat", samplePath, Errno.EACCES⟩ rfl).2.2 rfl).1,
   by rw [(((cleanup_on_inspection_error deniedWorld (deniedWorld.record (Call.stat samplePath))
      samplePath ⟨"stat", samplePath, Errno.EACCES⟩ rfl).2.2 rfl).2 sampleFlags "csi.example.com"
      rfl).1],
   by rw [(((cleanup_on_inspection_error deniedWorld (deniedWorld.record (Call.stat samplePath))
      samplePath ⟨"stat", samplePath, Errno.EACCES⟩ rfl).2.2 rfl).2 sampleFlags "csi.example.com"
      rfl).1]; rfl⟩

/-! ## The file-creation mask around the bind -/

/-- C8 as stated fails: on Linux with the prior mask 0022 and a bind that is
refused, `nodeRegister` exits with status 1 and the mask is still 0077; the
last calls are the one that sets the mask and the bind. -/
theorem umask_left_restrictive_when_bind_fails :
    refusedBindWorld.goos = "linux" ∧ refusedBindWorld.umask = 0o022 ∧
    (nodeRegister sampleFlags refusedBindWorld "csi.example.com").2 = Outcome.exited 1 ∧
    (nodeRegister sampleFlags refusedBindWorld "csi.example.com").1.umask = 0o077 ∧
    (nodeRegister sampleFlags refusedBindWorld "csi.example.com").1.trace =
      [Call.stat samplePath, Call.umask 0o077, Call.listen "unix" samplePath] := by
  decide

/-- C8, as the code has it: on Linux, for every prior mask `m`, once the
cleanup has passed `nodeRegister` sets the mask to 0077 right before the bind
call. When the bind succeeds the mask is restored to `m` right after it,
before serving, and stays `m`. When the bind fails the process exits with
status 1 at once: the mask is not restored and is still 0077. -/
theorem umask_scoped_to_successful_bind (flags : Flags) (w : World) (d : String) (m : Nat)
    (hg : w.goos = "linux") (hm : w.umask = m) (hlt : m < 512)
    (hc : (CleanupSocketFile w (nodeRegister.socketPath flags.regPath d)).2 = none) :
    (Umask (CleanupSocketFile w (nodeRegister.socketPath flags.regPath d)).1 0o077).1.umask
      = 0o077 ∧
    (∀ w3 lis,
      net.Listen (Umask (CleanupSocketFile w (nodeRegister.socketPath flags.regPath d)).1 0o077).1
        "unix" (nodeRegister.socketPath flags.regPath d) = (w3, Except.ok lis) →
      (nodeRegister flags w d).1.umask = m ∧
      (nodeRegister flags w d).1.trace =
        (CleanupSocketFile w (nodeRegister.socketPath flags.regPath d)).1.trace ++
          [Call.umask 0o077, Call.listen "unix" (nodeRegister.socketPath flags.regPath d),
           Call.umask m, Call.serve (nodeRegister.socketPath flags.regPath d)]) ∧
    (∀ w3 e,
      net.Listen (Umask (CleanupSocketFile w (nodeRegister.socketPath flags.regPath d)).1 0o077).1
        "unix" (nodeRegister.socketPath flags.regPath d) = (w3, Except.error e) →
      nodeRegister flags w d = (w3, Outcome.exited 1) ∧ w3.umask = 0o077 ∧
      w3.trace =
        (CleanupSocketFile w (nodeRegister.socketPath flags.regPath d)).1.trace ++
          [Call.umask 0o077, Call.listen "unix" (nodeRegister.socketPath flags.regPath d)]) := by
  have hf := cleanup_frame w (nodeRegister.socketPath flags.regPath d)
  rcases hcl : CleanupSocketFile w (nodeRegister.socketPath flags.regPath d) with ⟨w1, x⟩
  rw [hcl] at hc hf
  simp only at hc hf
  subst hc
  obtain ⟨-, -, hg1, hm1, -⟩ := hf
  rw [hg] at hg1
  rw [hm] at hm1
  have hmask : (if w1.goos = "linux" then Umask w1 0o077 else (w1, 0, none)) = Umask w1 0o077 := by
    rw [hg1]
    rfl
  refine ⟨rfl, ?_, ?_⟩
  · intro w3 lis hl
    have hlf := listen_frame (Umask w1 0o077).1 "unix" (nodeRegister.socketPath flags.regPath d)
    have hlis : lis.address = nodeRegister.socketPath flags.regPath d := by
      rcases listen_cases (Umask w1 0o077).1 "unix" (nodeRegister.socketPath flags.regPath d)
        with ⟨e, he⟩ | ⟨_, he⟩
      · rw [he] at hl
        simp at hl
      · rw [he] at hl
        simp only [Prod.mk.injEq, Except.ok.injEq] at hl
        rw [← hl.2]
    rw [hl] at hlf
    simp only at hlf
    obtain ⟨-, -, hg3, hm3, ht3⟩ := hlf
    have hg3b : w3.goos = "linux" := by rw [hg3]; exact hg1
    rcases hv : grpc.Serve (Umask w3 m).1
        (newRegistrationServer d flags.kubeletRegistrationPath supportedVersions) lis with ⟨w5, s⟩
    have hw := serve_world (Umask w3 m).1
        (newRegistrationServer d flags.kubeletRegistrationPath supportedVersions) lis
    rw [hv] at hw
    simp only at hw
    have hn := (nodeRegister_listening flags w w1 w3 w5 d lis s hcl
      (by rw [hmask]; exact hl)
      (by rw [hmask, hg3b]; simp only [if_true]; rw [show (Umask w1 0o077).2.1 = m from hm1]
          exact hv)).1
    rw [hn, hw]
    constructor
    · simp [Umask, unix.Umask, World.record, Nat.mod_eq_of_lt hlt]
    · simp [Umask, unix.Umask, World.record, ht3, hlis]
  · intro w3 e hl
    have hlf := listen_frame (Umask w1 0o077).1 "unix" (nodeRegister.socketPath flags.regPath d)
    rw [hl] at hlf
    simp only at hlf
    obtain ⟨-, -, -, hm3, ht3⟩ := hlf
    refine ⟨nodeRegister_listen_failed flags w w1 w3 d e hcl (by rw [hmask]; exact hl), ?_, ?_⟩
    · rw [hm3]
      rfl
    · rw [ht3]
      simp [Umask, unix.Umask, World.record]

/-- C8 on a Linux host with the mask 0022, where the bind succeeds. -/
theorem umask_scoped_to_successful_bind_witness :
    (nodeRegister sampleFlags quietWorld "csi.example.com").1.umask = 0o022 ∧
    (nodeRegister sampleFlags quietWorld "csi.example.com").1.trace =
      [Call.stat samplePath, Call.umask 0o077, Call.listen "unix" samplePath, Call.umask 0o022,
       Call.serve samplePath] :=
  ((umask_scoped_to_successful_bind sampleFlags quietWorld "csi.example.com" 0o022 rfl rfl
    (by decide) rfl).2.1
    (net.Listen (Umask (CleanupSocketFile quietWorld samplePath).1 0o077).1 "unix" samplePath).1
    ⟨"unix", samplePath⟩ rfl)

/-! ## The exit status -/

/-- C9: with kubelet-registration-path set and the version flag unset, the
process exits with status 0 exactly when the connection to the driver, the
driver-name query, the socket cleanup and the bind all succeeded and `Serve`
returned without error. An error in the connection, in the driver-name query,
in `CleanupSocketFile`, in `net.Listen` or from `Serve` ends the process with
status 1, in the state the failing call left: the trace ends with that call,
so no later startup step (no removal, no bind, no serving) is performed. -/
theorem main_exit_status (flags : Flags) (w : World)
    (hk : flags.kubeletRegistrationPath ≠ "") (hv : flags.showVersion = false) :
    ((main flags w).2 = Outcome.exited 0 ↔
      ∃ w1 csiConn w2 d w3 w4 lis w5,
        connection.Connect w flags.csiAddress = (w1, Except.ok csiConn) ∧
        csirpc.GetDriverName w1 csiConn = (w2, Except.ok d) ∧
        CleanupSocketFile w2 (nodeRegister.socketPath flags.regPath d) = (w3, none) ∧
        net.Listen (if w3.goos = "linux" then Umask w3 0o077 else (w3, 0, none)).1 "unix" (nodeRegister.socketPath flags.regPath d) = (w4, Except.ok lis) ∧
        grpc.Serve (if w4.goos = "linux" then (Umask w4 (if w3.goos = "linux" then Umask w3 0o077 else (w3, 0, none)).2.1).1 else w4)
          (newRegistrationServer d flags.kubeletRegistrationPath supportedVersions) lis = (w5, Served.returned none)) ∧
    (∀ w1 e, connection.Connect w flags.csiAddress = (w1, Except.error e) →
      main flags w = (w1, Outcome.exited 1) ∧
      w1.trace = w.trace ++ [Call.connect flags.csiAddress] ∧ w1.files = w.files) ∧
    (∀ w1 csiConn w2 e,
      connection.Connect w flags.csiAddress = (w1, Except.ok csiConn) →
      csirpc.GetDriverName w1 csiConn = (w2, Except.error e) →
      main flags w = (w2, Outcome.exited 1) ∧
      w2.trace = w.trace ++ [Call.connect flags.csiAddress, Call.getDriverName flags.csiAddress] ∧
      w2.files = w.files) ∧
    (∀ w1 csiConn w2 d w3 e,
      connection.Connect w flags.csiAddress = (w1, Except.ok csiConn) →
      csirpc.GetDriverName w1 csiConn = (w2, Except.ok d) →
      CleanupSocketFile w2 (nodeRegister.socketPath flags.regPath d) = (w3, some e) →
      main flags w = (w3, Outcome.exited 1) ∧
      (w3.trace = w2.trace ++ [Call.stat (nodeRegister.socketPath flags.regPath d)] ∨
        w3.trace = w2.trace ++ [Call.stat (nodeRegister.socketPath flags.regPath d), Call.remove (nodeRegister.socketPath flags.regPath d)]) ∧
      w3.files = w.files) ∧
    (∀ w1 csiConn w2 d w3 w4 e,
      connection.Connect w flags.csiAddress = (w1, Except.ok csiConn) →
      csirpc.GetDriverName w1 csiConn = (w2, Except.ok d) →
      CleanupSocketFile w2 (nodeRegister.socketPath flags.regPath d) = (w3, none) →
      net.Listen (if w3.goos = "linux" then Umask w3 0o077 else (w3, 0, none)).1 "unix" (nodeRegister.socketPath flags.regPath d) = (w4, Except.error e) →
      main flags w = (w4, Outcome.exited 1) ∧
      w4.trace = (if w3.goos = "linux" then Umask w3 0o077 else (w3, 0, none)).1.trace ++ [Call.listen "unix" (nodeRegister.socketPath flags.regPath d)]) ∧
    (∀ w1 csiConn w2 d w3 w4 lis w5 e,
      connection.Connect w flags.csiAddress = (w1, Except.ok csiConn) →
      csirpc.GetDriverName w1 csiConn = (w2, Except.ok d) →
      CleanupSocketFile w2 (nodeRegister.socketPath flags.regPath d) = (w3, none) →
      net.Listen (if w3.goos = "linux" then Umask w3 0o077 else (w3, 0, none)).1 "unix" (nodeRegister.socketPath flags.regPath d) = (w4, Except.ok lis) →
      grpc.Serve (if w4.goos = "linux" then (Umask w4 (if w3.goos = "linux" then Umask w3 0o077 else (w3, 0, none)).2.1).1 else w4)
          (newRegistrationServer d flags.kubeletRegistrationPath supportedVersions) lis = (w5, Served.returned (some e)) →
      main flags w = (w5, Outcome.exited 1)) := by
  have hcw := connect_world w flags.csiAddress
  refine ⟨?_, ?_, ?_, ?_, ?_, ?_⟩
  · constructor
    · intro h
      rcases h1 : connection.Connect w flags.csiAddress with ⟨w1, e | csiConn⟩
      · rw [main_connect_failed flags w w1 e hk hv h1] at h
        simp at h
      · rcases h2 : csirpc.GetDriverName w1 csiConn with ⟨w2, e | d⟩
        · rw [main_name_failed flags w w1 w2 csiConn e hk hv h1 h2] at h
          simp at h
        · rw [main_registers flags w w1 w2 csiConn d hk hv h1 h2] at h
          obtain ⟨w3, w4, lis, w5, h3, h4, h5⟩ := (nodeRegister_exit_zero flags w2 d).1 h
          exact ⟨w1, csiConn, w2, d, w3, w4, lis, w5, rfl, h2, h3, h4, h5⟩
    · rintro ⟨w1, csiConn, w2, d, w3, w4, lis, w5, h1, h2, h3, h4, h5⟩
      rw [main_registers flags w w1 w2 csiConn d hk hv h1 h2]
      exact (nodeRegister_exit_zero flags w2 d).2 ⟨w3, w4, lis, w5, h3, h4, h5⟩
  · intro w1 e h1
    rw [h1] at hcw
    simp only at hcw
    refine ⟨main_connect_failed flags w w1 e hk hv h1, ?_, ?_⟩ <;> rw [hcw.1] <;> rfl
  · intro w1 csiConn w2 e h1 h2
    rw [h1] at hcw
    simp only at hcw
    have ht := hcw.2 csiConn rfl
    simp only [csirpc.GetDriverName, Prod.mk.injEq] at h2
    refine ⟨main_name_failed flags w w1 w2 csiConn e hk hv h1 (by
      simp only [csirpc.GetDriverName, h2.1, h2.2]), ?_, ?_⟩
    · rw [← h2.1, hcw.1, ht]
      simp [World.record]
    · rw [← h2.1, hcw.1]
      rfl
  · intro w1 csiConn w2 d w3 e h1 h2 h3
    rw [h1] at hcw
    simp only at hcw
    have hf2 : w2.files = w.files := by
      simp only [csirpc.GetDriverName, Prod.mk.injEq] at h2
      rw [← h2.1, hcw.1]
      rfl
    rw [main_registers flags w w1 w2 csiConn d hk hv h1 h2]
    refine ⟨nodeRegister_cleanup_failed flags w2 w3 d e h3, ?_, ?_⟩
    · rcases cleanup_cases w2 (nodeRegister.socketPath flags.regPath d) with h | ⟨x, h⟩ | ⟨x, h⟩ | h <;> rw [h3] at h <;>
        simp only [Prod.mk.injEq] at h
      · simp at h
      · left
        rw [h.1]
        rfl
      · right
        rw [h.1]
        simp [World.record]
      · simp at h
    · rw [← hf2]
      rcases cleanup_cases w2 (nodeRegister.socketPath flags.regPath d) with h | ⟨x, h⟩ | ⟨x, h⟩ | h <;> rw [h3] at h <;>
        simp only [Prod.mk.injEq] at h
      · simp at h
      · rw [h.1]
        rfl
      · rw [h.1]
        rfl
      · simp at h
  · intro w1 csiConn w2 d w3 w4 e h1 h2 h3 h4
    rw [main_registers flags w w1 w2 csiConn d hk hv h1 h2]
    refine ⟨nodeRegister_listen_failed flags w2 w3 w4 d e h3 h4, ?_⟩
    have hl := listen_frame (if w3.goos = "linux" then Umask w3 0o077 else (w3, 0, none)).1 "unix" (nodeRegister.socketPath flags.regPath d)
    rw [h4] at hl
    exact hl.2.2.2.2
  · intro w1 csiConn w2 d w3 w4 lis w5 e h1 h2 h3 h4 h5
    rw [main_registers flags w w1 w2 csiConn d hk hv h1 h2]
    have hn := nodeRegister_listening flags w2 w3 w4 w5 d lis _ h3 h4 h5
    exact Prod.ext hn.1 (hn.2.2.1 e rfl)

/-- C9 on a run in which every step succeeds and the kubelet closes the
connection, on a run in which the driver cannot be reached, and on a run in
which the driver does not answer. -/
theorem main_exit_status_witness :
    (main sampleFlags quietWorld).2 = Outcome.exited 0 ∧
    main sampleFlags unreachableWorld =
      (unreachableWorld.record (Call.connect "/run/csi/socket"), Outcome.exited 1) ∧
    (main sampleFlags silentDriverWorld).1.trace =
      [Call.connect "/run/csi/socket", Call.getDriverName "/run/csi/socket"] :=
  ⟨(main_exit_status sampleFlags quietWorld (by decide) rfl).1.2
      ⟨_, _, _, _, _, _, _, _, rfl, rfl, rfl, rfl, rfl⟩,
   ((main_exit_status sampleFlags unreachableWorld (by decide) rfl).2.1 _ "connection refused"
      rfl).1,
   by
    have h := ((main_exit_status sampleFlags silentDriverWorld (by decide) rfl).2.2.1 _
      ⟨"/run/csi/socket"⟩ _ "context deadline exceeded" rfl rfl)
    rw [h.1]
    exact h.2.1⟩

/-! ## The socket path -/

/-- C1 on the code: for every registration directory and driver name the
path `nodeRegister` computes is the directory, a slash, the name and
`-reg.sock` with one more slash in front. For the directory `/registration`
(the default of the flag) and the driver `csi.example.com` it is
`//registration/csi.example.com-reg.sock`, it is inspected and bound under
that name, and it is not `/registration/csi.example.com-reg.sock`. -/
theorem socketPath_has_extra_leading_slash :
    (∀ regDir d : String,
      nodeRegister.socketPath regDir d = "/" ++ (regDir ++ "/" ++ d ++ "-reg.sock")) ∧
    defaultFlags.regPath = "/registration" ∧
    nodeRegister.socketPath "/registration" "csi.example.com" =
      "//registration/csi.example.com-reg.sock" ∧
    nodeRegister.socketPath "/registration" "csi.example.com" ≠
      "/registration" ++ "/" ++ "csi.example.com" ++ "-reg.sock" ∧
    (nodeRegister sampleFlags quietWorld "csi.example.com").1.trace =
      [Call.stat "//registration/csi.example.com-reg.sock", Call.umask 0o077,
       Call.listen "unix" "//registration/csi.example.com-reg.sock", Call.umask 0o022,
       Call.serve "//registration/csi.example.com-reg.sock"] := by
  refine ⟨?_, by decide, by decide, by decide, by decide⟩
  intro regDir d
  simp only [nodeRegister.socketPath, String.append_assoc]

end NodeDriverRegistrar
